import Mathlib

set_option maxRecDepth 16384
set_option maxHeartbeats 1000000

/-!
Verification of the request-ingress core of the my-girok API gateway.

The definitions below are a shallow embedding of
`services/gateway/api-gateway/src/middleware/request_context.rs`,
`src/routes/health.rs`, `src/routes/metrics.rs` and the lifecycle parts of
`src/main.rs`.  Header values are modelled as strings; the partial decoding
performed by http's `HeaderValue::to_str` (which fails on values that are not
visible ASCII) is modelled by `rustToStr`, and the encodability check of
`HeaderValue::from_str` by `isValidHeaderValue`.  The random 128 bits drawn by
`Uuid::new_v4` and the wall-clock timestamp are passed as explicit parameters.
-/

namespace Gateway

/-- Device category detected from the User-Agent string
(request_context.rs, `DeviceType`). -/
inductive DeviceType where
  | desktop
  | mobile
  | tablet
  | bot
  | unknown
deriving DecidableEq

/-- String form of a device category (request_context.rs, `DeviceType::as_str`). -/
def DeviceType.as_str : DeviceType → String
  | .desktop => "desktop"
  | .mobile => "mobile"
  | .tablet => "tablet"
  | .bot => "bot"
  | .unknown => "unknown"

/-- ASCII lowercasing of one character; model of Rust `str::to_lowercase`
(the inputs reaching it in this program are ASCII header values). -/
def charToLower (c : Char) : Char :=
  match c with
  | 'A' => 'a' | 'B' => 'b' | 'C' => 'c' | 'D' => 'd' | 'E' => 'e' | 'F' => 'f'
  | 'G' => 'g' | 'H' => 'h' | 'I' => 'i' | 'J' => 'j' | 'K' => 'k' | 'L' => 'l'
  | 'M' => 'm' | 'N' => 'n' | 'O' => 'o' | 'P' => 'p' | 'Q' => 'q' | 'R' => 'r'
  | 'S' => 's' | 'T' => 't' | 'U' => 'u' | 'V' => 'v' | 'W' => 'w' | 'X' => 'x'
  | 'Y' => 'y' | 'Z' => 'z'
  | other => other

/-- Lowercase a whole string, character by character. -/
def rustToLowercase (s : String) : String :=
  ⟨s.data.map charToLower⟩

/-- Whether the second list starts with the first one. -/
def listStartsWith : List Char → List Char → Bool
  | [], _ => true
  | _ :: _, [] => false
  | p :: ps, c :: cs => p == c && listStartsWith ps cs

/-- Whether `pat` occurs contiguously inside the list. -/
def listOccurs (pat : List Char) : List Char → Bool
  | [] => listStartsWith pat []
  | c :: cs => listStartsWith pat (c :: cs) || listOccurs pat cs

/-- Substring containment, model of Rust `str::contains` with a string pattern. -/
def strContains (s pat : String) : Bool :=
  listOccurs pat.data s.data

/-- Unicode white-space test, model of Rust `char::is_whitespace`. -/
def rustIsWhitespace (c : Char) : Bool :=
  (9 ≤ c.toNat && c.toNat ≤ 13) || c.toNat == 32 || c.toNat == 133 || c.toNat == 160 ||
  c.toNat == 5760 || (8192 ≤ c.toNat && c.toNat ≤ 8202) || c.toNat == 8232 ||
  c.toNat == 8233 || c.toNat == 8239 || c.toNat == 8287 || c.toNat == 12288

/-- Remove white-space from both ends, model of Rust `str::trim`. -/
def rustTrim (s : String) : String :=
  ⟨((s.data.dropWhile rustIsWhitespace).reverse.dropWhile rustIsWhitespace).reverse⟩

/-- The part of `s` before the first comma: the first element yielded by
Rust `s.split(',')`, which always exists. -/
def firstCommaField (s : String) : String :=
  ⟨s.data.takeWhile (fun c => !(c == ','))⟩

/-- Character admitted by http's `HeaderValue::to_str`: visible ASCII or tab. -/
def isToStrValidChar (c : Char) : Bool :=
  c.toNat == 9 || (32 ≤ c.toNat && c.toNat < 127)

/-- Whether `HeaderValue::to_str` succeeds on this value. -/
def isToStrValid (s : String) : Bool :=
  s.data.all isToStrValidChar

/-- Model of `HeaderValue::to_str`: yields the string when every character is
visible ASCII or tab, and fails otherwise. -/
def rustToStr (s : String) : Option String :=
  if isToStrValid s then some s else none

/-- Character admitted by http's `HeaderValue::from_str`: anything that is not
an ASCII control character other than tab. -/
def isValidHeaderValueChar (c : Char) : Bool :=
  c.toNat == 9 || (32 ≤ c.toNat && c.toNat != 127)

/-- Whether `HeaderValue::from_str` accepts this string as a header value. -/
def isValidHeaderValue (s : String) : Bool :=
  s.data.all isValidHeaderValueChar

/-- Decimal digit character. -/
def decChar : Nat → Char
  | 0 => '0' | 1 => '1' | 2 => '2' | 3 => '3' | 4 => '4'
  | 5 => '5' | 6 => '6' | 7 => '7' | 8 => '8' | 9 => '9'
  | _ => '*'

/-- Decimal digits of a natural number, most significant first. -/
def natDecimal (n : Nat) : List Char :=
  if _h : n < 10 then [decChar n]
  else natDecimal (n / 10) ++ [decChar (n % 10)]
termination_by n
decreasing_by exact Nat.div_lt_self (by omega) (by decide)

/-- Decimal rendering of a signed integer, model of `i64::to_string`. -/
def intDecimal (i : Int) : String :=
  if i < 0 then ⟨'-' :: natDecimal i.natAbs⟩ else ⟨natDecimal i.natAbs⟩

/-- Lowercase hexadecimal digit character. -/
def hexChar : Nat → Char
  | 0 => '0' | 1 => '1' | 2 => '2' | 3 => '3' | 4 => '4' | 5 => '5' | 6 => '6' | 7 => '7'
  | 8 => '8' | 9 => '9' | 10 => 'a' | 11 => 'b' | 12 => 'c' | 13 => 'd' | 14 => 'e' | 15 => 'f'
  | _ => '*'

/-- Two hexadecimal digits of one byte. -/
def byteHex (b : Nat) : List Char :=
  [hexChar (b / 16), hexChar (b % 16)]

/-- Byte `i` (big-endian, zero-based) of the 128-bit random value `r`. -/
def uuidByte (r i : Nat) : Nat :=
  r / 256 ^ (15 - i) % 256

/-- The sixteen bytes of the version-4 UUID built from random value `r`:
byte 6 carries the version nibble 4 and byte 8 the RFC 4122 variant bits,
as set by `Uuid::new_v4`. -/
def uuidBytes (r : Nat) : List Nat :=
  [uuidByte r 0, uuidByte r 1, uuidByte r 2, uuidByte r 3, uuidByte r 4, uuidByte r 5,
   uuidByte r 6 % 16 + 64, uuidByte r 7, uuidByte r 8 % 64 + 128, uuidByte r 9,
   uuidByte r 10, uuidByte r 11, uuidByte r 12, uuidByte r 13, uuidByte r 14, uuidByte r 15]

/-- Canonical hyphenated textual form of the version-4 UUID built from `r`,
model of `Uuid::new_v4().to_string()`. -/
def uuidV4String (r : Nat) : String :=
  ⟨byteHex (uuidByte r 0) ++ byteHex (uuidByte r 1) ++ byteHex (uuidByte r 2) ++
   byteHex (uuidByte r 3) ++ ['-'] ++ byteHex (uuidByte r 4) ++ byteHex (uuidByte r 5) ++
   ['-'] ++ byteHex (uuidByte r 6 % 16 + 64) ++ byteHex (uuidByte r 7) ++
   ['-'] ++ byteHex (uuidByte r 8 % 64 + 128) ++ byteHex (uuidByte r 9) ++
   ['-'] ++ byteHex (uuidByte r 10) ++ byteHex (uuidByte r 11) ++ byteHex (uuidByte r 12) ++
   byteHex (uuidByte r 13) ++ byteHex (uuidByte r 14) ++ byteHex (uuidByte r 15)⟩

/-- Numeric value of a lowercase hexadecimal digit character. -/
def hexVal : Char → Nat
  | '0' => 0 | '1' => 1 | '2' => 2 | '3' => 3 | '4' => 4 | '5' => 5 | '6' => 6 | '7' => 7
  | '8' => 8 | '9' => 9 | 'a' => 10 | 'b' => 11 | 'c' => 12 | 'd' => 13 | 'e' => 14 | 'f' => 15
  | _ => 0

/-- Recover the sixteen bytes from a 36-character canonical UUID text. -/
def decodeUuidBytes (s : String) : Option (List Nat) :=
  match s.data with
  | a0 :: a1 :: b0 :: b1 :: c0 :: c1 :: d0 :: d1 :: _ :: e0 :: e1 :: f0 :: f1 :: _ ::
    g0 :: g1 :: h0 :: h1 :: _ :: i0 :: i1 :: j0 :: j1 :: _ :: k0 :: k1 :: l0 :: l1 ::
    m0 :: m1 :: n0 :: n1 :: o0 :: o1 :: p0 :: p1 :: [] =>
    some [16 * hexVal a0 + hexVal a1, 16 * hexVal b0 + hexVal b1, 16 * hexVal c0 + hexVal c1,
          16 * hexVal d0 + hexVal d1, 16 * hexVal e0 + hexVal e1, 16 * hexVal f0 + hexVal f1,
          16 * hexVal g0 + hexVal g1, 16 * hexVal h0 + hexVal h1, 16 * hexVal i0 + hexVal i1,
          16 * hexVal j0 + hexVal j1, 16 * hexVal k0 + hexVal k1, 16 * hexVal l0 + hexVal l1,
          16 * hexVal m0 + hexVal m1, 16 * hexVal n0 + hexVal n1, 16 * hexVal o0 + hexVal o1,
          16 * hexVal p0 + hexVal p1]
  | _ => none

/-- Lowercase hexadecimal digit test. -/
def isHexDigitChar (c : Char) : Bool :=
  ('0' ≤ c && c ≤ '9') || ('a' ≤ c && c ≤ 'f')

/-- Canonical-form check for a version-4 UUID string: 36 characters, hyphens at
positions 8, 13, 18 and 23, lowercase hexadecimal digits elsewhere, version
digit 4 and an RFC 4122 variant digit. -/
def isUuidCanonicalV4 (s : String) : Bool :=
  match s.data with
  | a0 :: a1 :: b0 :: b1 :: c0 :: c1 :: d0 :: d1 :: s1 :: e0 :: e1 :: f0 :: f1 :: s2 ::
    g0 :: g1 :: h0 :: h1 :: s3 :: i0 :: i1 :: j0 :: j1 :: s4 :: k0 :: k1 :: l0 :: l1 ::
    m0 :: m1 :: n0 :: n1 :: o0 :: o1 :: p0 :: p1 :: [] =>
    s1 == '-' && s2 == '-' && s3 == '-' && s4 == '-' &&
    g0 == '4' && (i0 == '8' || i0 == '9' || i0 == 'a' || i0 == 'b') &&
    [a0, a1, b0, b1, c0, c1, d0, d1, e0, e1, f0, f1, g0, g1, h0, h1,
     i0, i1, j0, j1, k0, k1, l0, l1, m0, m1, n0, n1, o0, o1, p0, p1].all isHexDigitChar
  | _ => false

/-- The inbound header fields the gateway consults.  Header-name lookup in the
http crate is case-insensitive, so each consulted name is one optional field;
the stored string stands for the raw header value (its decoding is modelled by
`rustToStr` at each use site, as the source calls `to_str` at each use site). -/
structure HeaderMap where
  xForwardedFor : Option String := none
  xRealIp : Option String := none
  xRequestId : Option String := none
  xForwardedProto : Option String := none
  userAgent : Option String := none
  acceptLanguage : Option String := none
  host : Option String := none

/-- Peer socket address; `ip` stands for `addr.ip().to_string()`, which never
contains the port. -/
structure SocketAddr where
  ip : String
  port : Nat

/-- The X-Forwarded-For stage of `extract_client_ip`: the first comma-separated
element, trimmed, accepted when non-empty (absent when the header is missing,
undecodable, or trims empty). -/
def xffCandidate (headers : HeaderMap) : Option String :=
  (headers.xForwardedFor.bind rustToStr).bind fun xffStr =>
    if rustTrim (firstCommaField xffStr) = "" then none
    else some (rustTrim (firstCommaField xffStr))

/-- The X-Real-IP stage of `extract_client_ip`: the trimmed value, accepted
when non-empty (absent when the header is missing, undecodable, or trims
empty). -/
def realIpCandidate (headers : HeaderMap) : Option String :=
  (headers.xRealIp.bind rustToStr).bind fun ipStr =>
    if rustTrim ipStr = "" then none else some (rustTrim ipStr)

/-- Client-IP resolution (request_context.rs, `extract_client_ip`):
X-Forwarded-For first element, else X-Real-IP, else the peer IP, else the
literal string unknown. -/
def extract_client_ip (headers : HeaderMap) (connect_info : Option SocketAddr) : String :=
  match xffCandidate headers with
  | some ip => ip
  | none =>
    match realIpCandidate headers with
    | some ip => ip
    | none =>
      match connect_info with
      | some addr => addr.ip
      | none => "unknown"

/-- Request-id reconciliation (request_context.rs,
`extract_or_generate_request_id`); `r` models the 128 random bits drawn by
`Uuid::new_v4` when a fresh id is generated. -/
def extract_or_generate_request_id (headers : HeaderMap) (r : Nat) : String :=
  match headers.xRequestId.bind rustToStr with
  | some idStr => if idStr = "" then uuidV4String r else idStr
  | none => uuidV4String r

/-- Optional header extraction (request_context.rs, `extract_header_string`). -/
def extract_header_string (v : Option String) : Option String :=
  v.bind rustToStr

/-- Protocol resolution (request_context.rs, `extract_protocol`): the lowercased
X-Forwarded-Proto value whenever the header is present and decodable, else the
fixed default https. -/
def extract_protocol (headers : HeaderMap) : String :=
  match headers.xForwardedProto.bind rustToStr with
  | some protoStr => rustToLowercase protoStr
  | none => "https"

/-- The bot condition of `detect_device_type` (already-lowercased input). -/
def isBotUA (ua : String) : Bool :=
  strContains ua "bot" || strContains ua "crawler" || strContains ua "spider" ||
  strContains ua "googlebot" || strContains ua "bingbot" || strContains ua "slurp" ||
  strContains ua "duckduckbot" || strContains ua "baiduspider" || strContains ua "yandexbot" ||
  strContains ua "facebookexternalhit" || strContains ua "twitterbot" ||
  strContains ua "linkedinbot"

/-- The tablet condition of `detect_device_type` (already-lowercased input). -/
def isTabletUA (ua : String) : Bool :=
  strContains ua "ipad" || strContains ua "tablet" ||
  (strContains ua "android" && !strContains ua "mobile")

/-- The mobile condition of `detect_device_type` (already-lowercased input). -/
def isMobileUA (ua : String) : Bool :=
  strContains ua "mobile" || strContains ua "iphone" || strContains ua "ipod" ||
  strContains ua "android" || strContains ua "blackberry" ||
  strContains ua "windows phone" || strContains ua "opera mini" ||
  strContains ua "opera mobi"

/-- The desktop condition of `detect_device_type` (already-lowercased input). -/
def isDesktopUA (ua : String) : Bool :=
  strContains ua "mozilla" || strContains ua "chrome" || strContains ua "safari" ||
  strContains ua "firefox" || strContains ua "edge" || strContains ua "opera"

/-- Device classification (request_context.rs, `detect_device_type`): lowercase
the User-Agent, then test bot, tablet, mobile, desktop in order; first match
wins, otherwise unknown. -/
def detect_device_type (user_agent : Option String) : DeviceType :=
  match user_agent with
  | none => DeviceType.unknown
  | some ua0 =>
    if isBotUA (rustToLowercase ua0) then DeviceType.bot
    else if isTabletUA (rustToLowercase ua0) then DeviceType.tablet
    else if isMobileUA (rustToLowercase ua0) then DeviceType.mobile
    else if isDesktopUA (rustToLowercase ua0) then DeviceType.desktop
    else DeviceType.unknown

/-- The per-request context (request_context.rs, `RequestContext`). -/
structure RequestContext where
  client_ip : String
  request_id : String
  user_agent : Option String
  device_type : DeviceType
  accept_language : Option String
  host : Option String
  protocol : String
  timestamp : Int

/-- Context construction (request_context.rs, `RequestContext::from_request`);
`r` models the random bits backing a generated request id and `nowMs` the
chrono wall-clock timestamp. -/
def RequestContext.from_request (headers : HeaderMap) (connect_info : Option SocketAddr)
    (r : Nat) (nowMs : Int) : RequestContext :=
  { client_ip := extract_client_ip headers connect_info
    request_id := extract_or_generate_request_id headers r
    user_agent := extract_header_string headers.userAgent
    device_type := detect_device_type (extract_header_string headers.userAgent)
    accept_language := extract_header_string headers.acceptLanguage
    host := extract_header_string headers.host
    protocol := extract_protocol headers
    timestamp := nowMs }

/-- One outbound header entry, guarded by the `HeaderValue::from_str`
encodability check, as in the source's `if let Ok(value)` pattern. -/
def hentry (name : String) (v : String) : List (String × String) :=
  if isValidHeaderValue v then [(name, v)] else []

/-- One optional outbound header entry (absent field yields no header). -/
def hoptEntry (name : String) (v : Option String) : List (String × String) :=
  match v with
  | some s => hentry name s
  | none => []

/-- The two client-IP headers of the forwarding set; they share a single
encodability check, exactly as in the source. -/
def ipEntries (ip : String) : List (String × String) :=
  if isValidHeaderValue ip then
    [("x-forwarded-for", ip), ("x-real-ip", ip)]
  else []

/-- Forwarding-header construction (request_context.rs,
`RequestContext::to_forwarding_headers`).  All nine names are distinct, so the
insertion order carries no overwriting. -/
def RequestContext.to_forwarding_headers (ctx : RequestContext) : List (String × String) :=
  ipEntries ctx.client_ip ++
  (hentry "x-request-id" ctx.request_id ++
  (hentry "x-device-type" ctx.device_type.as_str ++
  (hoptEntry "x-user-agent" ctx.user_agent ++
  (hoptEntry "x-accept-language" ctx.accept_language ++
  (hoptEntry "x-forwarded-host" ctx.host ++
  (hentry "x-forwarded-proto" ctx.protocol ++
  hentry "x-gateway-timestamp" (intDecimal ctx.timestamp)))))))

/-- Lookup of the first value stored under a name, model of `HeaderMap::get`
on the produced header list. -/
def hget : List (String × String) → String → Option String
  | [], _ => none
  | (k, v) :: rest, n => if k = n then some v else hget rest n

/-- Body summary of the health endpoints (routes/health.rs, `HealthResponse`);
the version field, a compile-time constant, carries no decision logic. -/
structure HealthResponse where
  status : String
  service : String

/-- Readiness probe (routes/health.rs, `readiness_probe`) as a function of the
observed `is_shutting_down` flag: 503 while draining, 200 while serving. -/
def readiness_probe (is_shutting_down : Bool) : Nat × HealthResponse :=
  if is_shutting_down then
    (503, { status := "shutting_down", service := "api-gateway" })
  else
    (200, { status := "ok", service := "api-gateway" })

/-- Initial value of `AppState.is_shutting_down` (main.rs line 65). -/
def lifecycleInit : Bool := false

/-- One step of the process lifecycle: `shutdown_signal` stores true after a
termination or interrupt signal (main.rs lines 129 to 137); readiness probes
only read the flag.  No other code writes it. -/
inductive LifecycleStep : Bool → Bool → Prop where
  | signal (b : Bool) : LifecycleStep b true
  | probeRead (b : Bool) : LifecycleStep b b

/-- The installed Prometheus recorder handle; `rendered` models the text
returned by `handle.render()`. -/
structure PrometheusHandle where
  rendered : String

/-- Response of the metrics endpoint. -/
structure MetricsResponse where
  status : Nat
  contentType : Option String
  body : String

/-- Metrics endpoint (routes/metrics.rs, `metrics_handler`) as a function of
the optional global Prometheus handle: 200 with the rendered plaintext when the
handle is set, 500 otherwise. -/
def metrics_handler (h : Option PrometheusHandle) : MetricsResponse :=
  match h with
  | some handle =>
    { status := 200, contentType := some "text/plain; charset=utf-8", body := handle.rendered }
  | none =>
    { status := 500, contentType := none, body := "Metrics not initialized" }

/-! Helper lemmas shared by several claims. -/

/-- Unfolding of the string constructor. -/
theorem data_mk (l : List Char) : (String.mk l).data = l := rfl

/-- Successful header-value decoding yields the value itself, visibly ASCII. -/
theorem rustToStr_some {v w : String} (h : rustToStr v = some w) :
    w = v ∧ isToStrValid v = true := by
  unfold rustToStr at h
  split at h
  · exact ⟨(Option.some.injEq _ _ ▸ h).symm, by assumption⟩
  · exact absurd h (by simp)

/-- Characters accepted by to_str are accepted by from_str. -/
theorem validHeaderChar_of_toStrChar {c : Char} (h : isToStrValidChar c = true) :
    isValidHeaderValueChar c = true := by
  simp only [isToStrValidChar, isValidHeaderValueChar, Bool.or_eq_true, Bool.and_eq_true,
    beq_iff_eq, bne_iff_ne, decide_eq_true_eq] at h ⊢
  omega

/-- Values accepted by to_str are accepted by from_str. -/
theorem validHeader_of_toStrValid {s : String} (h : isToStrValid s = true) :
    isValidHeaderValue s = true := by
  simp only [isToStrValid, isValidHeaderValue, List.all_eq_true] at h ⊢
  exact fun x hx => validHeaderChar_of_toStrChar (h x hx)

/-- A character predicate holding on a list holds on any sublist. -/
theorem all_of_sublist {p : Char → Bool} {l l' : List Char}
    (hs : List.Sublist l' l) (h : l.all p = true) : l'.all p = true := by
  simp only [List.all_eq_true] at h ⊢
  exact fun x hx => h x (hs.subset hx)

/-- A character predicate survives trimming. -/
theorem all_rustTrim {p : Char → Bool} {s : String}
    (h : s.data.all p = true) : (rustTrim s).data.all p = true := by
  simp only [rustTrim, data_mk, List.all_eq_true] at h ⊢
  intro x hx
  have h1 := List.mem_reverse.mp hx
  have h2 := (List.dropWhile_sublist _).subset h1
  have h3 := List.mem_reverse.mp h2
  exact h x ((List.dropWhile_sublist _).subset h3)

/-- A character predicate survives taking the part before the first comma. -/
theorem all_firstCommaField {p : Char → Bool} {s : String}
    (h : s.data.all p = true) : (firstCommaField s).data.all p = true := by
  simp only [firstCommaField, data_mk, List.all_eq_true] at h ⊢
  exact fun x hx => h x ((List.takeWhile_sublist _).subset hx)

/-- Lowercasing one character keeps it a valid header-value character. -/
theorem validHeaderChar_toLower {c : Char} (h : isToStrValidChar c = true) :
    isValidHeaderValueChar (charToLower c) = true := by
  unfold charToLower
  split <;> first | decide | exact validHeaderChar_of_toStrChar h

/-- Lowercasing a decodable value yields an encodable value. -/
theorem validHeader_rustToLowercase {s : String} (h : isToStrValid s = true) :
    isValidHeaderValue (rustToLowercase s) = true := by
  simp only [isToStrValid, isValidHeaderValue, rustToLowercase, data_mk,
    List.all_eq_true, List.mem_map] at h ⊢
  rintro x ⟨c, hc, rfl⟩
  exact validHeaderChar_toLower (h c hc)

/-- Every decimal digit is an encodable header-value character. -/
theorem decChar_validHeader : ∀ n, n < 10 → isValidHeaderValueChar (decChar n) = true := by
  decide

/-- Every rendered decimal digit list is made of encodable characters. -/
theorem natDecimal_validHeader : ∀ n : Nat, ∀ c ∈ natDecimal n, isValidHeaderValueChar c = true := by
  intro n
  induction n using Nat.strong_induction_on with
  | _ n ih =>
    unfold natDecimal
    split
    · intro c hc
      simp only [List.mem_singleton] at hc
      subst hc
      exact decChar_validHeader n (by assumption)
    · intro c hc
      rcases List.mem_append.mp hc with h1 | h2
      · exact ih (n / 10) (Nat.div_lt_self (by omega) (by decide)) c h1
      · simp only [List.mem_singleton] at h2
        subst h2
        exact decChar_validHeader _ (Nat.mod_lt _ (by decide))

/-- A rendered integer is always an encodable header value. -/
theorem intDecimal_validHeader (i : Int) : isValidHeaderValue (intDecimal i) = true := by
  unfold intDecimal isValidHeaderValue
  split
  · simp only [data_mk, List.all_eq_true, List.mem_cons]
    rintro x (rfl | hx)
    · decide
    · exact natDecimal_validHeader _ x hx
  · simp only [data_mk, List.all_eq_true]
    exact fun x hx => natDecimal_validHeader _ x hx

/-- Every byte extracted from the random value is below 256. -/
theorem uuidByte_lt (r i : Nat) : uuidByte r i < 256 :=
  Nat.mod_lt _ (by decide)

/-- Hexadecimal digits are encodable header-value characters. -/
theorem hexChar_validHeader : ∀ n, n < 16 → isValidHeaderValueChar (hexChar n) = true := by
  decide

/-- Hexadecimal digits satisfy the hex-digit test. -/
theorem hexChar_isHexDigit : ∀ n, n < 16 → isHexDigitChar (hexChar n) = true := by
  decide

/-- Both rendered digits of a byte are encodable header-value characters. -/
theorem byteHex_all_validHeader {b : Nat} (h : b < 256) :
    (byteHex b).all isValidHeaderValueChar = true := by
  simp only [byteHex, List.all_cons, List.all_nil, Bool.and_eq_true, Bool.and_true]
  exact ⟨hexChar_validHeader _ (by omega), hexChar_validHeader _ (Nat.mod_lt _ (by decide))⟩

/-- A generated UUID string is always an encodable header value. -/
theorem uuidV4String_validHeader (r : Nat) : isValidHeaderValue (uuidV4String r) = true := by
  have h0 := uuidByte_lt r 0; have h1 := uuidByte_lt r 1; have h2 := uuidByte_lt r 2
  have h3 := uuidByte_lt r 3; have h4 := uuidByte_lt r 4; have h5 := uuidByte_lt r 5
  have h6 := uuidByte_lt r 6; have h7 := uuidByte_lt r 7; have h8 := uuidByte_lt r 8
  have h9 := uuidByte_lt r 9; have h10 := uuidByte_lt r 10; have h11 := uuidByte_lt r 11
  have h12 := uuidByte_lt r 12; have h13 := uuidByte_lt r 13; have h14 := uuidByte_lt r 14
  have h15 := uuidByte_lt r 15
  simp only [isValidHeaderValue, uuidV4String, data_mk, List.all_append, List.all_cons,
    List.all_nil, Bool.and_eq_true, Bool.and_true]
  repeat' apply And.intro
  all_goals first
    | decide
    | exact byteHex_all_validHeader (by omega)

/-- Recovering the bytes from a generated UUID string yields the source bytes. -/
theorem decode_uuidV4String (r : Nat) :
    decodeUuidBytes (uuidV4String r) = some (uuidBytes r) := by
  have key : ∀ b : Nat, b < 256 →
      16 * hexVal (hexChar (b / 16)) + hexVal (hexChar (b % 16)) = b := by decide
  have hlist : (uuidV4String r).data =
      byteHex (uuidByte r 0) ++ byteHex (uuidByte r 1) ++ byteHex (uuidByte r 2) ++
      byteHex (uuidByte r 3) ++ ['-'] ++ byteHex (uuidByte r 4) ++ byteHex (uuidByte r 5) ++
      ['-'] ++ byteHex (uuidByte r 6 % 16 + 64) ++ byteHex (uuidByte r 7) ++
      ['-'] ++ byteHex (uuidByte r 8 % 64 + 128) ++ byteHex (uuidByte r 9) ++
      ['-'] ++ byteHex (uuidByte r 10) ++ byteHex (uuidByte r 11) ++ byteHex (uuidByte r 12) ++
      byteHex (uuidByte r 13) ++ byteHex (uuidByte r 14) ++ byteHex (uuidByte r 15) := rfl
  have h0 := uuidByte_lt r 0; have h1 := uuidByte_lt r 1; have h2 := uuidByte_lt r 2
  have h3 := uuidByte_lt r 3; have h4 := uuidByte_lt r 4; have h5 := uuidByte_lt r 5
  have h6 := uuidByte_lt r 6; have h7 := uuidByte_lt r 7; have h8 := uuidByte_lt r 8
  have h9 := uuidByte_lt r 9; have h10 := uuidByte_lt r 10; have h11 := uuidByte_lt r 11
  have h12 := uuidByte_lt r 12; have h13 := uuidByte_lt r 13; have h14 := uuidByte_lt r 14
  have h15 := uuidByte_lt r 15
  unfold decodeUuidBytes
  rw [hlist]
  simp only [byteHex, List.cons_append, List.nil_append, uuidBytes, Option.some.injEq,
    List.cons.injEq, and_true]
  repeat' apply And.intro
  all_goals exact key _ (by omega)

/-- Distinct byte vectors render to distinct UUID strings. -/
theorem uuidV4String_inj {r r' : Nat} (h : uuidV4String r = uuidV4String r') :
    uuidBytes r = uuidBytes r' := by
  have := congrArg decodeUuidBytes h
  rw [decode_uuidV4String, decode_uuidV4String] at this
  exact Option.some.injEq _ _ ▸ this

/-- A generated UUID string passes the canonical version-4 shape check. -/
theorem uuidV4String_canonical (r : Nat) : isUuidCanonicalV4 (uuidV4String r) = true := by
  have hver : (uuidByte r 6 % 16 + 64) / 16 = 4 := by
    have := uuidByte_lt r 6; omega
  have hvar : 8 ≤ (uuidByte r 8 % 64 + 128) / 16 ∧ (uuidByte r 8 % 64 + 128) / 16 < 12 := by
    have := uuidByte_lt r 8; omega
  have hvarhex : ∀ v, 8 ≤ v → v < 12 →
      (hexChar v == '8' || hexChar v == '9' || hexChar v == 'a' || hexChar v == 'b') = true := by
    decide
  have hlist : (uuidV4String r).data =
      byteHex (uuidByte r 0) ++ byteHex (uuidByte r 1) ++ byteHex (uuidByte r 2) ++
      byteHex (uuidByte r 3) ++ ['-'] ++ byteHex (uuidByte r 4) ++ byteHex (uuidByte r 5) ++
      ['-'] ++ byteHex (uuidByte r 6 % 16 + 64) ++ byteHex (uuidByte r 7) ++
      ['-'] ++ byteHex (uuidByte r 8 % 64 + 128) ++ byteHex (uuidByte r 9) ++
      ['-'] ++ byteHex (uuidByte r 10) ++ byteHex (uuidByte r 11) ++ byteHex (uuidByte r 12) ++
      byteHex (uuidByte r 13) ++ byteHex (uuidByte r 14) ++ byteHex (uuidByte r 15) := rfl
  have h0 := uuidByte_lt r 0; have h1 := uuidByte_lt r 1; have h2 := uuidByte_lt r 2
  have h3 := uuidByte_lt r 3; have h4 := uuidByte_lt r 4; have h5 := uuidByte_lt r 5
  have h6 := uuidByte_lt r 6; have h7 := uuidByte_lt r 7; have h8 := uuidByte_lt r 8
  have h9 := uuidByte_lt r 9; have h10 := uuidByte_lt r 10; have h11 := uuidByte_lt r 11
  have h12 := uuidByte_lt r 12; have h13 := uuidByte_lt r 13; have h14 := uuidByte_lt r 14
  have h15 := uuidByte_lt r 15
  unfold isUuidCanonicalV4
  rw [hlist]
  simp only [byteHex, List.cons_append, List.nil_append, List.all_cons, List.all_nil,
    Bool.and_eq_true, Bool.and_true, beq_self_eq_true, true_and]
  repeat' apply And.intro
  all_goals first
    | (rw [hver]; decide)
    | exact hvarhex _ hvar.1 hvar.2
    | exact hexChar_isHexDigit _ (by omega)

/-- Lookup distributes over list concatenation. -/
theorem hget_append (l1 l2 : List (String × String)) (n : String) :
    hget (l1 ++ l2) n = (hget l1 n).or (hget l2 n) := by
  induction l1 with
  | nil => rfl
  | cons p rest ih =>
    obtain ⟨k, v⟩ := p
    by_cases hk : k = n <;> simp [hget, hk, ih]

/-- A guarded entry under a different name is invisible to lookup. -/
theorem hget_hentry_ne {m n v : String} (h : m ≠ n) : hget (hentry m v) n = none := by
  unfold hentry
  split <;> simp [hget, h]

/-- Lookup of a guarded entry under its own name sees the guard. -/
theorem hget_hentry_self {m v : String} :
    hget (hentry m v) m = if isValidHeaderValue v then some v else none := by
  unfold hentry
  split <;> simp_all [hget]

/-- An optional guarded entry under a different name is invisible to lookup. -/
theorem hget_hoptEntry_ne {m n : String} {v : Option String} (h : m ≠ n) :
    hget (hoptEntry m v) n = none := by
  cases v <;> simp [hoptEntry, hget, hget_hentry_ne h]

/-- Lookup of an optional guarded entry under its own name. -/
theorem hget_hoptEntry_self {m : String} {v : Option String} :
    hget (hoptEntry m v) m =
      (match v with
       | some s => if isValidHeaderValue s then some s else none
       | none => none) := by
  cases v <;> simp [hoptEntry, hget_hentry_self, hget]

/-- The IP block is invisible to lookups under other names. -/
theorem hget_ipEntries_ne {ip n : String}
    (h1 : "x-forwarded-for" ≠ n) (h2 : "x-real-ip" ≠ n) :
    hget (ipEntries ip) n = none := by
  unfold ipEntries
  split <;> simp [hget, h1, h2]

/-- Lookup of the forwarded-for entry sees the shared guard. -/
theorem hget_ipEntries_xff {ip : String} :
    hget (ipEntries ip) "x-forwarded-for" =
      if isValidHeaderValue ip then some ip else none := by
  unfold ipEntries
  split <;> simp_all [hget]

/-- Lookup of the real-ip entry sees the shared guard. -/
theorem hget_ipEntries_realip {ip : String} :
    hget (ipEntries ip) "x-real-ip" =
      if isValidHeaderValue ip then some ip else none := by
  unfold ipEntries
  split <;> simp_all [hget]

/-- Value of the forwarded-for header produced for a context. -/
theorem fwd_xff (ctx : RequestContext) :
    hget ctx.to_forwarding_headers "x-forwarded-for" =
      if isValidHeaderValue ctx.client_ip then some ctx.client_ip else none := by
  simp [RequestContext.to_forwarding_headers, hget_append, hget_ipEntries_xff,
    hget_hentry_ne, hget_hoptEntry_ne, Option.or_none]

/-- Value of the real-ip header produced for a context. -/
theorem fwd_realip (ctx : RequestContext) :
    hget ctx.to_forwarding_headers "x-real-ip" =
      if isValidHeaderValue ctx.client_ip then some ctx.client_ip else none := by
  simp [RequestContext.to_forwarding_headers, hget_append, hget_ipEntries_realip,
    hget_hentry_ne, hget_hoptEntry_ne, Option.or_none]

/-- Value of the request-id header produced for a context. -/
theorem fwd_reqid (ctx : RequestContext) :
    hget ctx.to_forwarding_headers "x-request-id" =
      if isValidHeaderValue ctx.request_id then some ctx.request_id else none := by
  simp [RequestContext.to_forwarding_headers, hget_append, hget_ipEntries_ne,
    hget_hentry_ne, hget_hoptEntry_ne, hget_hentry_self, Option.or_none]

/-- Value of the device-type header produced for a context. -/
theorem fwd_device (ctx : RequestContext) :
    hget ctx.to_forwarding_headers "x-device-type" =
      if isValidHeaderValue ctx.device_type.as_str then some ctx.device_type.as_str
      else none := by
  simp [RequestContext.to_forwarding_headers, hget_append, hget_ipEntries_ne,
    hget_hentry_ne, hget_hoptEntry_ne, hget_hentry_self, Option.or_none]

/-- Value of the forwarded user-agent header produced for a context. -/
theorem fwd_ua (ctx : RequestContext) :
    hget ctx.to_forwarding_headers "x-user-agent" =
      (match ctx.user_agent with
       | some s => if isValidHeaderValue s then some s else none
       | none => none) := by
  cases h : ctx.user_agent <;>
    simp [RequestContext.to_forwarding_headers, hget_append, hget_ipEntries_ne,
      hget_hentry_ne, hget_hoptEntry_ne, hget_hoptEntry_self, h, Option.or_none]

/-- Value of the accept-language header produced for a context. -/
theorem fwd_lang (ctx : RequestContext) :
    hget ctx.to_forwarding_headers "x-accept-language" =
      (match ctx.accept_language with
       | some s => if isValidHeaderValue s then some s else none
       | none => none) := by
  cases h : ctx.accept_language <;>
    simp [RequestContext.to_forwarding_headers, hget_append, hget_ipEntries_ne,
      hget_hentry_ne, hget_hoptEntry_ne, hget_hoptEntry_self, h, Option.or_none]

/-- Value of the forwarded-host header produced for a context. -/
theorem fwd_host (ctx : RequestContext) :
    hget ctx.to_forwarding_headers "x-forwarded-host" =
      (match ctx.host with
       | some s => if isValidHeaderValue s then some s else none
       | none => none) := by
  cases h : ctx.host <;>
    simp [RequestContext.to_forwarding_headers, hget_append, hget_ipEntries_ne,
      hget_hentry_ne, hget_hoptEntry_ne, hget_hoptEntry_self, h, Option.or_none]

/-- Value of the forwarded-proto header produced for a context. -/
theorem fwd_proto (ctx : RequestContext) :
    hget ctx.to_forwarding_headers "x-forwarded-proto" =
      if isValidHeaderValue ctx.protocol then some ctx.protocol else none := by
  simp [RequestContext.to_forwarding_headers, hget_append, hget_ipEntries_ne,
    hget_hentry_ne, hget_hoptEntry_ne, hget_hentry_self, Option.or_none]

/-- Value of the gateway-timestamp header produced for a context. -/
theorem fwd_ts (ctx : RequestContext) :
    hget ctx.to_forwarding_headers "x-gateway-timestamp" =
      if isValidHeaderValue (intDecimal ctx.timestamp) then some (intDecimal ctx.timestamp)
      else none := by
  simp [RequestContext.to_forwarding_headers, hget_append, hget_ipEntries_ne,
    hget_hentry_ne, hget_hoptEntry_ne, hget_hentry_self, Option.or_none]

/-- A successful X-Forwarded-For stage yields an encodable, non-empty value. -/
theorem xffCandidate_some_valid {headers : HeaderMap} {ip : String}
    (h : xffCandidate headers = some ip) :
    isValidHeaderValue ip = true ∧ ip ≠ "" := by
  unfold xffCandidate at h
  obtain ⟨v, hbv, hf⟩ := Option.bind_eq_some.mp h
  obtain ⟨w, _, hws⟩ := Option.bind_eq_some.mp hbv
  obtain ⟨hEq, hvalid⟩ := rustToStr_some hws
  subst hEq
  split at hf
  · exact absurd hf (by simp)
  · obtain rfl := Option.some.inj hf
    exact ⟨validHeader_of_toStrValid (all_rustTrim (all_firstCommaField hvalid)),
      by assumption⟩

/-- A successful X-Real-IP stage yields an encodable, non-empty value. -/
theorem realIpCandidate_some_valid {headers : HeaderMap} {ip : String}
    (h : realIpCandidate headers = some ip) :
    isValidHeaderValue ip = true ∧ ip ≠ "" := by
  unfold realIpCandidate at h
  obtain ⟨v, hbv, hf⟩ := Option.bind_eq_some.mp h
  obtain ⟨w, _, hws⟩ := Option.bind_eq_some.mp hbv
  obtain ⟨hEq, hvalid⟩ := rustToStr_some hws
  subst hEq
  split at hf
  · exact absurd hf (by simp)
  · obtain rfl := Option.some.inj hf
    exact ⟨validHeader_of_toStrValid (all_rustTrim hvalid), by assumption⟩

/-- The resolver returns the X-Forwarded-For stage value when that stage
succeeds. -/
theorem extract_client_ip_eq_xff {headers : HeaderMap} {ci : Option SocketAddr} {ip : String}
    (h : xffCandidate headers = some ip) : extract_client_ip headers ci = ip := by
  unfold extract_client_ip
  rw [h]

/-- The resolver returns the X-Real-IP stage value when the first stage fails
and the second succeeds. -/
theorem extract_client_ip_eq_realip {headers : HeaderMap} {ci : Option SocketAddr} {ip : String}
    (h1 : xffCandidate headers = none) (h2 : realIpCandidate headers = some ip) :
    extract_client_ip headers ci = ip := by
  unfold extract_client_ip
  rw [h1, h2]

/-- The resolver returns the peer IP when both header stages fail. -/
theorem extract_client_ip_eq_peer {headers : HeaderMap} {a : SocketAddr}
    (h1 : xffCandidate headers = none) (h2 : realIpCandidate headers = none) :
    extract_client_ip headers (some a) = a.ip := by
  unfold extract_client_ip
  rw [h1, h2]

/-- The resolver returns the literal unknown when everything is absent. -/
theorem extract_client_ip_eq_unknown {headers : HeaderMap}
    (h1 : xffCandidate headers = none) (h2 : realIpCandidate headers = none) :
    extract_client_ip headers none = "unknown" := by
  unfold extract_client_ip
  rw [h1, h2]

/-- The resolved client IP is an encodable header value as soon as the peer
address renders to one. -/
theorem extract_client_ip_valid (headers : HeaderMap) (ci : Option SocketAddr)
    (hci : ∀ a, ci = some a → isValidHeaderValue a.ip = true) :
    isValidHeaderValue (extract_client_ip headers ci) = true := by
  cases hx : xffCandidate headers with
  | some ip =>
    rw [extract_client_ip_eq_xff hx]
    exact (xffCandidate_some_valid hx).1
  | none =>
    cases hr : realIpCandidate headers with
    | some ip =>
      rw [extract_client_ip_eq_realip hx hr]
      exact (realIpCandidate_some_valid hr).1
    | none =>
      cases ci with
      | some a =>
        rw [extract_client_ip_eq_peer hx hr]
        exact hci a rfl
      | none =>
        rw [extract_client_ip_eq_unknown hx hr]
        decide

/-- The reconciler reuses the decoded inbound id, subject to the emptiness
check. -/
theorem extract_request_id_eq_of_some {headers : HeaderMap} {r : Nat} {idStr : String}
    (hb : headers.xRequestId.bind rustToStr = some idStr) :
    extract_or_generate_request_id headers r =
      if idStr = "" then uuidV4String r else idStr := by
  unfold extract_or_generate_request_id
  rw [hb]

/-- The reconciler generates a fresh id when no inbound id decodes. -/
theorem extract_request_id_eq_of_none {headers : HeaderMap} {r : Nat}
    (hb : headers.xRequestId.bind rustToStr = none) :
    extract_or_generate_request_id headers r = uuidV4String r := by
  unfold extract_or_generate_request_id
  rw [hb]

/-- The reconciled request id is always an encodable header value. -/
theorem extract_request_id_valid (headers : HeaderMap) (r : Nat) :
    isValidHeaderValue (extract_or_generate_request_id headers r) = true := by
  cases hb : headers.xRequestId.bind rustToStr with
  | none =>
    rw [extract_request_id_eq_of_none hb]
    exact uuidV4String_validHeader r
  | some idStr =>
    rw [extract_request_id_eq_of_some hb]
    obtain ⟨w, _, hws⟩ := Option.bind_eq_some.mp hb
    obtain ⟨hEq, hvalid⟩ := rustToStr_some hws
    have hvalid2 : isToStrValid idStr = true := by rw [hEq]; exact hvalid
    by_cases he : idStr = ""
    · rw [if_pos he]; exact uuidV4String_validHeader r
    · rw [if_neg he]; exact validHeader_of_toStrValid hvalid2

/-- The resolved protocol is always an encodable header value. -/
theorem extract_protocol_valid (headers : HeaderMap) :
    isValidHeaderValue (extract_protocol headers) = true := by
  unfold extract_protocol
  cases hb : headers.xForwardedProto.bind rustToStr with
  | none => decide
  | some p =>
    obtain ⟨w, _, hws⟩ := Option.bind_eq_some.mp hb
    obtain ⟨hEq, hvalid⟩ := rustToStr_some hws
    subst hEq
    exact validHeader_rustToLowercase hvalid

/-- Every device category renders to an encodable header value. -/
theorem as_str_valid (dt : DeviceType) : isValidHeaderValue dt.as_str = true := by
  cases dt <;> decide

/-- A successfully extracted optional header value is encodable. -/
theorem extract_header_string_valid {v : Option String} {s : String}
    (h : extract_header_string v = some s) : isValidHeaderValue s = true := by
  unfold extract_header_string at h
  obtain ⟨w, _, hws⟩ := Option.bind_eq_some.mp h
  obtain ⟨hEq, hvalid⟩ := rustToStr_some hws
  subst hEq
  exact validHeader_of_toStrValid hvalid

/-- The X-Forwarded-For stage evaluated on a present, decodable header. -/
theorem xffCandidate_eq_of {headers : HeaderMap} {v : String}
    (hh : headers.xForwardedFor = some v) (hv : isToStrValid v = true) :
    xffCandidate headers =
      if rustTrim (firstCommaField v) = "" then none
      else some (rustTrim (firstCommaField v)) := by
  unfold xffCandidate
  rw [hh]
  simp [rustToStr, hv]

/-- The X-Real-IP stage evaluated on a present, decodable header. -/
theorem realIpCandidate_eq_of {headers : HeaderMap} {w : String}
    (hh : headers.xRealIp = some w) (hv : isToStrValid w = true) :
    realIpCandidate headers =
      if rustTrim w = "" then none else some (rustTrim w) := by
  unfold realIpCandidate
  rw [hh]
  simp [rustToStr, hv]

/-- An X-Forwarded-For value whose first element trims empty never yields a
candidate, decodable or not. -/
theorem xffCandidate_none_of_trim_empty {headers : HeaderMap} {v : String}
    (hh : headers.xForwardedFor = some v) (hne : rustTrim (firstCommaField v) = "") :
    xffCandidate headers = none := by
  unfold xffCandidate
  rw [hh]
  by_cases hv : isToStrValid v = true
  · simp [rustToStr, hv, hne]
  · simp [rustToStr, hv]

/-- C7: for every state of the lifecycle flag, the readiness probe answers
HTTP 200 exactly when the flag reads serving (false) and HTTP 503 exactly when
it reads draining (true); no third outcome exists. -/
theorem C7_readiness_probe_status : ∀ b : Bool,
    ((readiness_probe b).fst = 200 ↔ b = false) ∧
    ((readiness_probe b).fst = 503 ↔ b = true) ∧
    ((readiness_probe b).fst = 200 ∨ (readiness_probe b).fst = 503) := by
  decide

/-- C8: the lifecycle flag starts as serving (false), the only state-changing
step is the one-shot transition to draining (true) on a termination or
interrupt signal, and from draining no sequence of steps ever reaches serving
again. -/
theorem C8_lifecycle_one_way :
    lifecycleInit = false ∧
    (∀ s t : Bool, LifecycleStep s t → s ≠ t → s = false ∧ t = true) ∧
    (∀ s t : Bool, Relation.ReflTransGen LifecycleStep s t → s = true → t = true) := by
  refine ⟨rfl, ?_, ?_⟩
  · intro s t hst hne
    cases hst with
    | signal => cases s with
      | false => exact ⟨rfl, rfl⟩
      | true => exact absurd rfl hne
    | probeRead => exact absurd rfl hne
  · intro s t h hs
    induction h with
    | refl => exact hs
    | tail _ step ih =>
      cases step with
      | signal => rfl
      | probeRead => exact ih

/-- Witness for C8: the signal step at serving, and drain permanence along a
concrete probe-read step sequence from draining. -/
theorem C8_lifecycle_one_way_witness :
    (false = false ∧ true = true) ∧ true = true :=
  ⟨C8_lifecycle_one_way.2.1 false true (LifecycleStep.signal false) (by decide),
   C8_lifecycle_one_way.2.2 true true
     (Relation.ReflTransGen.tail Relation.ReflTransGen.refl (LifecycleStep.probeRead true)) rfl⟩

/-- C9: the metrics endpoint answers HTTP 500 exactly when the Prometheus
handle has not been installed, and otherwise HTTP 200 with the rendered
metrics as plaintext; no other status is possible. -/
theorem C9_metrics_endpoint : ∀ h : Option PrometheusHandle,
    ((metrics_handler h).status = 500 ↔ h = none) ∧
    (∀ ph, h = some ph → metrics_handler h =
      { status := 200, contentType := some "text/plain; charset=utf-8",
        body := ph.rendered }) ∧
    ((metrics_handler h).status = 200 ∨ (metrics_handler h).status = 500) := by
  intro h
  cases h with
  | none =>
    exact ⟨by simp [metrics_handler], fun ph hph => absurd hph (by simp),
      by simp [metrics_handler]⟩
  | some ph =>
    refine ⟨by simp [metrics_handler], fun ph2 hph => ?_, by simp [metrics_handler]⟩
    obtain rfl := Option.some.inj hph
    rfl

/-- Witness for C9 at a concrete handle and at the absent handle. -/
theorem C9_metrics_endpoint_witness :
    metrics_handler (some { rendered := "gateway_requests_total 3" }) =
      { status := 200, contentType := some "text/plain; charset=utf-8",
        body := "gateway_requests_total 3" } ∧
    (metrics_handler none).status = 500 :=
  ⟨(C9_metrics_endpoint (some { rendered := "gateway_requests_total 3" })).2.1 _ rfl,
   ((C9_metrics_endpoint none).1).mpr rfl⟩

/-- C1 counterexample: an X-Forwarded-For value that is non-empty after
trimming but whose first comma-separated element trims to the empty string is
not returned first-element-trimmed; the resolver falls through (here to the
literal unknown), refuting the claim's condition "X-Forwarded-For present and
non-empty after trimming". -/
theorem C1_client_ip_counterexample :
    rustTrim ",10.0.0.1" ≠ "" ∧
    extract_client_ip { xForwardedFor := some ",10.0.0.1" } none = "unknown" ∧
    extract_client_ip { xForwardedFor := some ",10.0.0.1" } none ≠
      rustTrim (firstCommaField ",10.0.0.1") := by
  decide

/-- C1 amended: the resolver returns the trimmed first comma-separated element
of X-Forwarded-For whenever that element is non-empty after trimming
(regardless of X-Real-IP or peer), else the trimmed X-Real-IP value when
present and non-empty after trimming, else the peer IP with the port stripped,
else the literal unknown; it always returns a string. -/
theorem C1_client_ip_precedence (headers : HeaderMap) (ci : Option SocketAddr) :
    (∀ v, headers.xForwardedFor = some v → isToStrValid v = true →
       rustTrim (firstCommaField v) ≠ "" →
       extract_client_ip headers ci = rustTrim (firstCommaField v)) ∧
    (xffCandidate headers = none →
     ∀ w, headers.xRealIp = some w → isToStrValid w = true → rustTrim w ≠ "" →
       extract_client_ip headers ci = rustTrim w) ∧
    (xffCandidate headers = none → realIpCandidate headers = none →
     ∀ a, ci = some a → extract_client_ip headers ci = a.ip) ∧
    (xffCandidate headers = none → realIpCandidate headers = none → ci = none →
       extract_client_ip headers ci = "unknown") := by
  refine ⟨?_, ?_, ?_, ?_⟩
  · intro v hh hv hne
    exact extract_client_ip_eq_xff (by rw [xffCandidate_eq_of hh hv, if_neg hne])
  · intro hx w hh hv hne
    exact extract_client_ip_eq_realip hx (by rw [realIpCandidate_eq_of hh hv, if_neg hne])
  · intro hx hr a hc
    subst hc
    exact extract_client_ip_eq_peer hx hr
  · intro hx hr hc
    subst hc
    exact extract_client_ip_eq_unknown hx hr

/-- Witness for C1 at one concrete header map per precedence level. -/
theorem C1_client_ip_precedence_witness :
    extract_client_ip
        { xForwardedFor := some "203.0.113.195, 70.41.3.18", xRealIp := some "5.6.7.8" }
        none =
      rustTrim (firstCommaField "203.0.113.195, 70.41.3.18") ∧
    extract_client_ip { xRealIp := some " 192.168.1.100 " } none = rustTrim " 192.168.1.100 " ∧
    extract_client_ip {} (some { ip := "10.0.0.1", port := 12345 }) = "10.0.0.1" ∧
    extract_client_ip {} none = "unknown" :=
  ⟨(C1_client_ip_precedence _ _).1 _ rfl (by decide) (by decide),
   (C1_client_ip_precedence _ _).2.1 (by decide) _ rfl (by decide) (by decide),
   (C1_client_ip_precedence _ _).2.2.1 (by decide) (by decide) _ rfl,
   (C1_client_ip_precedence _ _).2.2.2 (by decide) (by decide) rfl⟩

/-- C10: when X-Forwarded-For is present but its first comma-separated element
trims to the empty string, the resolver does not return the empty string; it
falls through to the trimmed X-Real-IP when present and non-empty, else the
peer IP, else the literal unknown. -/
theorem C10_xff_first_element_empty (headers : HeaderMap) (ci : Option SocketAddr)
    (v : String) (hh : headers.xForwardedFor = some v)
    (hne : rustTrim (firstCommaField v) = "") :
    (∀ w, headers.xRealIp = some w → isToStrValid w = true → rustTrim w ≠ "" →
       extract_client_ip headers ci = rustTrim w) ∧
    (realIpCandidate headers = none →
       ∀ a, ci = some a → extract_client_ip headers ci = a.ip) ∧
    (realIpCandidate headers = none → ci = none →
       extract_client_ip headers ci = "unknown") ∧
    ((∀ a, ci = some a → a.ip ≠ "") → extract_client_ip headers ci ≠ "") := by
  have hx : xffCandidate headers = none := xffCandidate_none_of_trim_empty hh hne
  refine ⟨?_, ?_, ?_, ?_⟩
  · intro w hhw hvw hnew
    exact extract_client_ip_eq_realip hx (by rw [realIpCandidate_eq_of hhw hvw, if_neg hnew])
  · intro hr a hc
    subst hc
    exact extract_client_ip_eq_peer hx hr
  · intro hr hc
    subst hc
    exact extract_client_ip_eq_unknown hx hr
  · intro hpe
    cases hr : realIpCandidate headers with
    | some ipr =>
      rw [extract_client_ip_eq_realip hx hr]
      exact (realIpCandidate_some_valid hr).2
    | none =>
      cases ci with
      | some a =>
        rw [extract_client_ip_eq_peer hx hr]
        exact hpe a rfl
      | none =>
        rw [extract_client_ip_eq_unknown hx hr]
        decide

/-- Witness for C10 at concrete header maps with a leading comma. -/
theorem C10_xff_first_element_empty_witness :
    extract_client_ip { xForwardedFor := some " , 1.2.3.4", xRealIp := some " 5.6.7.8 " }
        none = rustTrim " 5.6.7.8 " ∧
    extract_client_ip { xForwardedFor := some "," } none = "unknown" ∧
    extract_client_ip { xForwardedFor := some "," } none ≠ "" :=
  ⟨(C10_xff_first_element_empty _ none " , 1.2.3.4" rfl (by decide)).1
     _ rfl (by decide) (by decide),
   (C10_xff_first_element_empty _ none "," rfl (by decide)).2.2.1 (by decide) rfl,
   (C10_xff_first_element_empty _ none "," rfl (by decide)).2.2.2
     (by intro a ha; simp at ha)⟩

/-- C4: a present, decodable, non-empty X-Request-Id is reused verbatim;
otherwise the returned id is the canonically rendered version-4 UUID of the
drawn random bits, and draws with different UUID bytes give different ids. -/
theorem C4_request_id_reconciliation :
    (∀ (headers : HeaderMap) (r : Nat) (v : String),
       headers.xRequestId = some v → isToStrValid v = true → v ≠ "" →
       extract_or_generate_request_id headers r = v) ∧
    (∀ (headers : HeaderMap) (r : Nat),
       headers.xRequestId.bind rustToStr = none ∨
         headers.xRequestId.bind rustToStr = some "" →
       extract_or_generate_request_id headers r = uuidV4String r) ∧
    (∀ r : Nat, isUuidCanonicalV4 (uuidV4String r) = true) ∧
    (∀ r r' : Nat, uuidBytes r ≠ uuidBytes r' → uuidV4String r ≠ uuidV4String r') := by
  refine ⟨?_, ?_, uuidV4String_canonical, ?_⟩
  · intro headers r v hh hv hne
    have hb : headers.xRequestId.bind rustToStr = some v := by
      rw [hh]
      simp [rustToStr, hv]
    rw [extract_request_id_eq_of_some hb, if_neg hne]
  · intro headers r h
    rcases h with h | h
    · exact extract_request_id_eq_of_none h
    · rw [extract_request_id_eq_of_some h, if_pos rfl]
  · intro r r' hne heq
    exact hne (uuidV4String_inj heq)

/-- Witness for C4 at concrete header maps and random draws. -/
theorem C4_request_id_reconciliation_witness :
    extract_or_generate_request_id { xRequestId := some "existing-id-123" } 0 =
      "existing-id-123" ∧
    extract_or_generate_request_id {} 0 = uuidV4String 0 ∧
    extract_or_generate_request_id { xRequestId := some "" } 0 = uuidV4String 0 ∧
    isUuidCanonicalV4 (uuidV4String 0) = true ∧
    uuidV4String 0 ≠ uuidV4String 1 :=
  ⟨C4_request_id_reconciliation.1 _ 0 _ rfl (by decide) (by decide),
   C4_request_id_reconciliation.2.1 _ 0 (Or.inl rfl),
   C4_request_id_reconciliation.2.1 _ 0 (Or.inr (by decide)),
   C4_request_id_reconciliation.2.2.1 0,
   C4_request_id_reconciliation.2.2.2 0 1 (by decide)⟩

/-- C2 counterexample: the fixture User-Agent containing android but not
mobile is classified tablet, not mobile, exactly as the claim's own tablet
rule dictates (the repository's own mobile test uses an equivalent fixture and
contradicts the code). -/
theorem C2_device_classifier_counterexample :
    detect_device_type (some "Mozilla/5.0 (Linux; Android 10; SM-G973F)") =
      DeviceType.tablet ∧
    DeviceType.tablet ≠ DeviceType.mobile := by
  decide

/-- C2 amended: the classifier evaluates bot, tablet, mobile, desktop, unknown
in order with first match short-circuiting, tablet matching ipad or tablet or
android-without-mobile case-insensitively; the fixtures map as in the claim
except that the android fixture without a mobile token maps to tablet. -/
theorem C2_device_classifier (ua : String) :
    detect_device_type (some ua) =
      (if isBotUA (rustToLowercase ua) then DeviceType.bot
       else if isTabletUA (rustToLowercase ua) then DeviceType.tablet
       else if isMobileUA (rustToLowercase ua) then DeviceType.mobile
       else if isDesktopUA (rustToLowercase ua) then DeviceType.desktop
       else DeviceType.unknown) ∧
    isTabletUA (rustToLowercase ua) =
      (strContains (rustToLowercase ua) "ipad" || strContains (rustToLowercase ua) "tablet" ||
       (strContains (rustToLowercase ua) "android" &&
        !strContains (rustToLowercase ua) "mobile")) ∧
    detect_device_type none = DeviceType.unknown ∧
    detect_device_type (some "Googlebot/2.1 (+http://www.google.com/bot.html)") =
      DeviceType.bot ∧
    detect_device_type (some "Mozilla/5.0 (iPad; CPU OS 14_0)") = DeviceType.tablet ∧
    detect_device_type (some "Mozilla/5.0 (Linux; Android 10; SM-G973F)") =
      DeviceType.tablet ∧
    detect_device_type (some "Mozilla/5.0 (Linux; Android 10; SM-T860)") =
      DeviceType.tablet ∧
    detect_device_type (some "Mozilla/5.0 (Windows NT 10.0; Win64; x64) Chrome/91.0") =
      DeviceType.desktop ∧
    detect_device_type (some "") = DeviceType.unknown :=
  ⟨rfl, rfl, rfl, by decide, by decide, by decide, by decide, by decide, by decide⟩

/-- C3 counterexample: with X-Forwarded-Proto present but empty the resolver
returns the empty string and not the claimed default https. -/
theorem C3_protocol_counterexample :
    extract_protocol { xForwardedProto := some "" } = "" ∧ ("" : String) ≠ "https" := by
  decide

/-- C3 amended: the resolved protocol equals the lowercased X-Forwarded-Proto
value whenever the header is present and decodable, even when empty, and
equals the fixed default https only when the header is absent or undecodable;
the resolver always returns a string. -/
theorem C3_protocol_resolution (headers : HeaderMap) :
    (∀ p, headers.xForwardedProto = some p → isToStrValid p = true →
       extract_protocol headers = rustToLowercase p) ∧
    (headers.xForwardedProto.bind rustToStr = none → extract_protocol headers = "https") := by
  constructor
  · intro p hp hv
    unfold extract_protocol
    rw [hp]
    simp [rustToStr, hv]
  · intro hb
    unfold extract_protocol
    rw [hb]

/-- Witness for C3 at a concrete uppercase header and at the absent header. -/
theorem C3_protocol_resolution_witness :
    extract_protocol { xForwardedProto := some "HTTP" } = rustToLowercase "HTTP" ∧
    extract_protocol {} = "https" :=
  ⟨(C3_protocol_resolution _).1 "HTTP" rfl (by decide),
   (C3_protocol_resolution _).2 rfl⟩

/-- C6: for every request context, each forwarding header is emitted exactly
when its source field renders to an encodable header value, so an unencodable
field silently drops only the header(s) derived from that field while every
other encodable header is still emitted, and the construction never fails. -/
theorem C6_forwarding_header_omission (ctx : RequestContext) :
    hget ctx.to_forwarding_headers "x-forwarded-for" =
      (if isValidHeaderValue ctx.client_ip then some ctx.client_ip else none) ∧
    hget ctx.to_forwarding_headers "x-real-ip" =
      (if isValidHeaderValue ctx.client_ip then some ctx.client_ip else none) ∧
    hget ctx.to_forwarding_headers "x-request-id" =
      (if isValidHeaderValue ctx.request_id then some ctx.request_id else none) ∧
    hget ctx.to_forwarding_headers "x-device-type" =
      (if isValidHeaderValue ctx.device_type.as_str then some ctx.device_type.as_str
       else none) ∧
    hget ctx.to_forwarding_headers "x-user-agent" =
      (match ctx.user_agent with
       | some s => if isValidHeaderValue s then some s else none
       | none => none) ∧
    hget ctx.to_forwarding_headers "x-accept-language" =
      (match ctx.accept_language with
       | some s => if isValidHeaderValue s then some s else none
       | none => none) ∧
    hget ctx.to_forwarding_headers "x-forwarded-host" =
      (match ctx.host with
       | some s => if isValidHeaderValue s then some s else none
       | none => none) ∧
    hget ctx.to_forwarding_headers "x-forwarded-proto" =
      (if isValidHeaderValue ctx.protocol then some ctx.protocol else none) ∧
    hget ctx.to_forwarding_headers "x-gateway-timestamp" =
      (if isValidHeaderValue (intDecimal ctx.timestamp) then some (intDecimal ctx.timestamp)
       else none) :=
  ⟨fwd_xff ctx, fwd_realip ctx, fwd_reqid ctx, fwd_device ctx, fwd_ua ctx, fwd_lang ctx,
   fwd_host ctx, fwd_proto ctx, fwd_ts ctx⟩

/-- C5: forwarding a context built by from_request always emits the
forwarded-for, real-ip, request-id, device-type, forwarded-proto and
gateway-timestamp headers, and emits the user-agent, accept-language and
forwarded-host headers exactly when the corresponding context field is
present (assuming the peer address renders to an encodable value, as textual
IP addresses always do). -/
theorem C5_roundtrip (headers : HeaderMap) (ci : Option SocketAddr) (r : Nat) (nowMs : Int)
    (hci : ∀ a, ci = some a → isValidHeaderValue a.ip = true) :
    (hget (RequestContext.from_request headers ci r nowMs).to_forwarding_headers
      "x-forwarded-for").isSome = true ∧
    (hget (RequestContext.from_request headers ci r nowMs).to_forwarding_headers
      "x-real-ip").isSome = true ∧
    (hget (RequestContext.from_request headers ci r nowMs).to_forwarding_headers
      "x-request-id").isSome = true ∧
    (hget (RequestContext.from_request headers ci r nowMs).to_forwarding_headers
      "x-device-type").isSome = true ∧
    (hget (RequestContext.from_request headers ci r nowMs).to_forwarding_headers
      "x-forwarded-proto").isSome = true ∧
    (hget (RequestContext.from_request headers ci r nowMs).to_forwarding_headers
      "x-gateway-timestamp").isSome = true ∧
    ((hget (RequestContext.from_request headers ci r nowMs).to_forwarding_headers
       "x-user-agent").isSome = true ↔
     (RequestContext.from_request headers ci r nowMs).user_agent.isSome = true) ∧
    ((hget (RequestContext.from_request headers ci r nowMs).to_forwarding_headers
       "x-accept-language").isSome = true ↔
     (RequestContext.from_request headers ci r nowMs).accept_language.isSome = true) ∧
    ((hget (RequestContext.from_request headers ci r nowMs).to_forwarding_headers
       "x-forwarded-host").isSome = true ↔
     (RequestContext.from_request headers ci r nowMs).host.isSome = true) := by
  have hip : isValidHeaderValue (extract_client_ip headers ci) = true :=
    extract_client_ip_valid headers ci hci
  have hrid : isValidHeaderValue (extract_or_generate_request_id headers r) = true :=
    extract_request_id_valid headers r
  have hproto : isValidHeaderValue (extract_protocol headers) = true :=
    extract_protocol_valid headers
  have hts : isValidHeaderValue (intDecimal nowMs) = true := intDecimal_validHeader nowMs
  refine ⟨?_, ?_, ?_, ?_, ?_, ?_, ?_, ?_, ?_⟩
  · simp [fwd_xff, RequestContext.from_request, hip]
  · simp [fwd_realip, RequestContext.from_request, hip]
  · simp [fwd_reqid, RequestContext.from_request, hrid]
  · simp [fwd_device, RequestContext.from_request, as_str_valid _]
  · simp [fwd_proto, RequestContext.from_request, hproto]
  · simp [fwd_ts, RequestContext.from_request, hts]
  · cases hu : extract_header_string headers.userAgent with
    | none => simp [fwd_ua, RequestContext.from_request, hu]
    | some s =>
      have hv := extract_header_string_valid hu
      simp [fwd_ua, RequestContext.from_request, hu, hv]
  · cases hu : extract_header_string headers.acceptLanguage with
    | none => simp [fwd_lang, RequestContext.from_request, hu]
    | some s =>
      have hv := extract_header_string_valid hu
      simp [fwd_lang, RequestContext.from_request, hu, hv]
  · cases hu : extract_header_string headers.host with
    | none => simp [fwd_host, RequestContext.from_request, hu]
    | some s =>
      have hv := extract_header_string_valid hu
      simp [fwd_host, RequestContext.from_request, hu, hv]

/-- Witness for C5 at a concrete request: mandatory emission, one present
optional field emitted and one absent optional field omitted. -/
theorem C5_roundtrip_witness :
    (hget (RequestContext.from_request
        { xForwardedFor := some "203.0.113.195, 70.41.3.18",
          userAgent := some "Mozilla/5.0 (iPhone; CPU iPhone OS 14_0)" }
        (some { ip := "10.0.0.1", port := 12345 }) 7 1234).to_forwarding_headers
      "x-forwarded-for").isSome = true ∧
    ((hget (RequestContext.from_request
        { xForwardedFor := some "203.0.113.195, 70.41.3.18",
          userAgent := some "Mozilla/5.0 (iPhone; CPU iPhone OS 14_0)" }
        (some { ip := "10.0.0.1", port := 12345 }) 7 1234).to_forwarding_headers
      "x-user-agent").isSome = true ↔
     (RequestContext.from_request
        { xForwardedFor := some "203.0.113.195, 70.41.3.18",
          userAgent := some "Mozilla/5.0 (iPhone; CPU iPhone OS 14_0)" }
        (some { ip := "10.0.0.1", port := 12345 }) 7 1234).user_agent.isSome = true) :=
  ⟨(C5_roundtrip _ _ 7 1234 (by intro a ha; cases ha; decide)).1,
   (C5_roundtrip _ _ 7 1234 (by intro a ha; cases ha; decide)).2.2.2.2.2.2.1⟩

end Gateway
